import Mathlib

/-
Verification of the account-pool lifecycle manager
(script/account_keeper.py and script/register_accounts.py).

The Python scripts are shallowly embedded: external effects (the HTTP
liveness probe, the browser driver, the provisioning collaborator, the
success/failure of a file write) are passed in as explicit parameters,
and the store (data/accounts.json) is threaded through as an explicit
`List Account` value.
-/

namespace GeminiKeeper

/-- A persisted credential record, as built by `save_config`
(register_accounts.py:177-184).  The derived display field `expires_at`
is metadata computed from the cookie expiry and is not modelled; no
claim concerns it. -/
structure Account where
  id : String
  csesidx : String
  config_id : String
  secure_c_ses : String
  host_c_oses : String
deriving Repr, DecidableEq

/-- Outcome of the HTTP request that `check_account`
(account_keeper.py:82-87) sends to the liveness endpoint: either a
response with a status code, or a raised network/transport exception. -/
inductive ProbeResult where
  | status (code : Nat)
  | exn
deriving Repr, DecidableEq

/-- The Alive/Dead/Unknown taxonomy of spec §4.2, keyed to the same
branches as `check_account`: 200 is Alive, 401/403 is Dead, any other
status code or an exception is Unknown. -/
inductive Status where
  | alive
  | dead
  | unknown
deriving Repr, DecidableEq

/-- classify: which taxonomy class a probe outcome falls in (spec §4.2). -/
def classify : ProbeResult → Status
  | .status c => if c = 200 then .alive else if c = 401 ∨ c = 403 then .dead else .unknown
  | .exn => .unknown

/-- check_account (account_keeper.py:67-105): returns `true` (usable) on
HTTP 200, `false` on HTTP 401/403, and `true` on every other status code
("temporary error") and on any raised exception ("network error"). -/
def check_account (r : ProbeResult) : Bool :=
  match r with
  | .status code =>
      if code = 200 then true
      else if code = 401 ∨ code = 403 then false
      else true
  | .exn => true

/-- delete_account (account_keeper.py:108-113): drops every record whose
`id` equals `account_id`. -/
def delete_account (account_id : String) (accounts : List Account) : List Account :=
  accounts.filter (fun a => a.id != account_id)

/-- The ids collected in `invalid_ids` during the check loop of
check_and_maintain (account_keeper.py:167-178): ids of the records whose
probe said unusable, in store order. -/
def invalid_ids (probe : Account → ProbeResult) (accounts : List Account) : List String :=
  (accounts.filter (fun a => !check_account (probe a))).map (fun a => a.id)

/-- The eviction pass of check_and_maintain (account_keeper.py:181-183):
`delete_account` is folded over `invalid_ids`, starting from the loaded
list. -/
def evictAll (probe : Account → ProbeResult) (accounts : List Account) : List Account :=
  (invalid_ids probe accounts).foldl (fun acc i => delete_account i acc) accounts

/-- The dedup append performed at the end of save_config
(register_accounts.py:217-222): load, drop every record whose `id`
equals the new record's `id`, append the new record, save. -/
def append_account (c : Account) (store : List Account) : List Account :=
  (store.filter (fun a => a.id != c.id)) ++ [c]

/-- A Python runtime error relevant to this program. -/
inductive PyError where
  | nameError (name : String)
deriving Repr, DecidableEq

/-- The names bound at module scope of register_accounts.py when `main`
starts: imports (lines 21-32), the module constants (lines 35-57) and
the module-level function definitions.  `OUTPUT_DIR` is mentioned in the
docstring (line 14) but never assigned anywhere in the file. -/
def register_module_names : List String :=
  ["webdriver", "Service", "Options", "By", "WebDriverWait", "EC", "Keys",
   "BeautifulSoup", "urlparse", "parse_qs", "datetime", "time", "random",
   "json", "os", "sys", "requests",
   "IS_DOCKER", "SCRIPT_DIR", "PROJECT_ROOT",
   "TOTAL_ACCOUNTS", "MAIL_API", "MAIL_KEY", "ACCOUNTS_FILE", "LOGIN_URL",
   "XPATH", "NAMES",
   "log", "create_chrome_driver", "create_email", "get_code",
   "load_accounts", "save_accounts", "save_config", "delete_local_file",
   "register", "main"]

/-- The global names read by the f-strings of the startup banner of
`main` (register_accounts.py:349-353), in evaluation order: line 350
reads `TOTAL_ACCOUNTS`, line 352 reads `OUTPUT_DIR`. -/
def banner_names : List String := ["TOTAL_ACCOUNTS", "OUTPUT_DIR"]

/-- Python name resolution for a sequence of global reads: the first
name not bound at module scope raises `NameError`. -/
def lookup_names : List String → Except PyError Unit
  | [] => .ok ()
  | n :: rest =>
      if register_module_names.contains n then lookup_names rest
      else .error (.nameError n)

/-- The registration loop of `main` (register_accounts.py:359-411) under
the assumption that every provisioning attempt succeeds: each iteration
obtains one new credential (the opaque `provision` collaborator, indexed
by the attempt number) and persists it through save_config's dedup
append; it runs until `success` reaches the target. -/
def register_loop (provision : Nat → Account) : Nat → Nat → List Account → List Account
  | 0, _, store => store
  | remaining + 1, attempt, store =>
      register_loop provision remaining (attempt + 1) (append_account (provision attempt) store)

/-- main of register_accounts.py (lines 348-421), run as a subprocess on
a store currently holding `store`:  the startup banner is evaluated
first; if a banner name is unbound the unhandled `NameError` terminates
the interpreter with a nonzero exit status before any provisioning
attempt, leaving the store untouched.  Returns (final store, number of
provisioning attempts, outcome); `.ok` means exit status 0. -/
def register_main (total : Nat) (provision : Nat → Account) (store : List Account) :
    List Account × Nat × Except PyError Unit :=
  match lookup_names banner_names with
  | .error e => (store, 0, .error e)
  | .ok _ => (register_loop provision total 0 store, total, .ok ())

/-- register_accounts of account_keeper.py (lines 116-154): returns
immediately when `count ≤ 0`; otherwise spawns register_accounts.py as a
subprocess, waits for it, and merely logs its exit status — a nonzero
exit is logged as a warning and the function returns normally.  The
result is the store as the subprocess left it. -/
def register_accounts_keeper (count : Nat) (provision : Nat → Account)
    (store : List Account) : List Account :=
  if count = 0 then store
  else (register_main count provision store).1

/-- How a run of check_and_maintain can fail: save_accounts raising
because the store location is unwritable. -/
inductive RunError where
  | saveFailed
deriving Repr, DecidableEq

/-- Observable trace of one check_and_maintain run: the durable store
content when the run ends, the successful whole-set writes performed by
the keeper's own save_accounts, the targets passed to
register_accounts, and whether the run raised. -/
structure RunTrace where
  durable : List Account
  writes : List (List Account)
  registerCalls : List Nat
  outcome : Except RunError Unit
deriving Repr

/-- check_and_maintain (account_keeper.py:157-198).  One pass over the
loaded accounts splits them into `valid_accounts` (probe usable) and
`invalid_ids`; if any id is invalid, `delete_account` is folded over the
ids and the result saved by save_accounts — when the store is unwritable
(`saveOk = false`) that save raises, the exception propagates out of the
run (caught by `main`'s loop), and the durable state keeps its previous
content.  Afterwards, if the count of valid accounts is below
`minAccounts`, register_accounts is invoked with the difference. -/
def check_and_maintain_run (probe : Account → ProbeResult) (minAccounts : Nat)
    (saveOk : Bool) (provision : Nat → Account) (accounts : List Account) : RunTrace :=
  let valid_accounts := accounts.filter (fun a => check_account (probe a))
  let invalid := invalid_ids probe accounts
  if invalid.isEmpty then
    let valid_count := valid_accounts.length
    if valid_count < minAccounts then
      { durable := register_accounts_keeper (minAccounts - valid_count) provision accounts,
        writes := [], registerCalls := [minAccounts - valid_count], outcome := .ok () }
    else
      { durable := accounts, writes := [], registerCalls := [], outcome := .ok () }
  else if saveOk then
    let evicted := evictAll probe accounts
    let valid_count := valid_accounts.length
    if valid_count < minAccounts then
      { durable := register_accounts_keeper (minAccounts - valid_count) provision evicted,
        writes := [evicted], registerCalls := [minAccounts - valid_count], outcome := .ok () }
    else
      { durable := evicted, writes := [evicted], registerCalls := [], outcome := .ok () }
  else
    { durable := accounts, writes := [], registerCalls := [], outcome := .error .saveFailed }

/-- The scheduler loop of account_keeper.py `main` (lines 209-216): each
iteration runs check_and_maintain inside `try/except Exception`; the
exception is logged and the loop sleeps and proceeds to the next run,
which starts from whatever the durable store holds.  `saveFn n` says
whether the store is writable during run `n`. -/
def keeper_loop (probe : Account → ProbeResult) (minAccounts : Nat)
    (saveFn : Nat → Bool) (provision : Nat → Account) (store : List Account) :
    Nat → List Account
  | 0 => store
  | n + 1 =>
      (check_and_maintain_run probe minAccounts (saveFn n) provision
        (keeper_loop probe minAccounts saveFn provision store n)).durable

/-- One snapshot of the browser driver as observed by a poll iteration
of save_config (register_accounts.py:150-188): the value of the
`__Secure-C_SES` cookie, the value of the `__Host-C_OSES` cookie, the
`csesidx` query parameter, and the `cid` path segment.  `none` stands
for an absent field (a missing cookie or parameter). -/
structure DriverState where
  secure_c_ses : Option String
  host_c_oses : Option String
  csesidx : Option String
  config_id : Option String
deriving Repr, DecidableEq

/-- Python truthiness of an optional string field: `None` and the empty
string are falsy. -/
def truthy : Option String → Bool
  | none => false
  | some s => s != ""

/-- The readiness condition of save_config (register_accounts.py:172-175):
all four key fields hold a truthy value. -/
def fieldsReady (s : DriverState) : Bool :=
  truthy s.secure_c_ses && truthy s.host_c_oses && truthy s.csesidx && truthy s.config_id

/-- save_config (register_accounts.py:144-224) on the sequence of driver
snapshots observed at the successive polls of its wait window: the loop
breaks at the first snapshot whose four key fields are all truthy and
builds the record from it; if no snapshot is ready within the window,
the missing fields are logged and `None` is returned with the store
untouched.  On success the record is persisted with the dedup append.
Returns (record or `none`, resulting store). -/
def save_config (email : String) (states : List DriverState) (store : List Account) :
    Option Account × List Account :=
  match states.find? fieldsReady with
  | some s =>
      let data : Account :=
        { id := email,
          csesidx := s.csesidx.getD "",
          config_id := s.config_id.getD "",
          secure_c_ses := s.secure_c_ses.getD "",
          host_c_oses := s.host_c_oses.getD "" }
      (some data, append_account data store)
  | none => (none, store)

/-- The serialized form of one record as json.dump writes it — the exact
whitespace of the real dump is irrelevant to the claims; what matters is
that distinct stores serialize to distinct, multi-character content. -/
def serializeAccount (a : Account) : String :=
  "\x7b\"id\": \"" ++ a.id ++ "\", \"csesidx\": \"" ++ a.csesidx ++
  "\", \"config_id\": \"" ++ a.config_id ++ "\", \"secure_c_ses\": \"" ++ a.secure_c_ses ++
  "\", \"host_c_oses\": \"" ++ a.host_c_oses ++ "\"\x7d"

/-- The full file image json.dump produces for an account list. -/
def serializeAccounts (l : List Account) : String :=
  "[" ++ String.intercalate ", " (l.map serializeAccount) ++ "]"

/-- The file image as a character sequence. -/
def save_accounts_image (l : List Account) : List Char :=
  (serializeAccounts l).toList

/-- save_accounts (account_keeper.py:59-64 and register_accounts.py:137-141)
interrupted mid-write: it opens ACCOUNTS_FILE itself with mode "w" —
no temporary file, no rename — so the old content is truncated away the
moment the file is opened, and a crash after `i` characters have been
written leaves the file holding the first `i` characters of the new
image.  `oldContent` is the file content before the call; it does not
survive into any crash state. -/
def save_accounts_interrupted (oldContent : List Char) (newAccounts : List Account)
    (i : Nat) : List Char :=
  (save_accounts_image newAccounts).take i

/-- Sample credential records used by concrete evaluations. -/
def sampleAccount (n : Nat) : Account :=
  { id := "acct" ++ toString n,
    csesidx := "idx" ++ toString n,
    config_id := "cfg" ++ toString n,
    secure_c_ses := "ses" ++ toString n,
    host_c_oses := "oses" ++ toString n }

/-- A probe under which only the record with id "acct3" is rejected
(HTTP 401) and every other record gets HTTP 200. -/
def probeKill3 : Account → ProbeResult :=
  fun a => if a.id = "acct3" then .status 401 else .status 200

/-- A store of three records, the third of which `probeKill3` rejects. -/
def sampleStore3 : List Account := [sampleAccount 1, sampleAccount 2, sampleAccount 3]

/-- Two distinct records sharing the id "dup". -/
def dupA : Account :=
  { id := "dup", csesidx := "x1", config_id := "c1", secure_c_ses := "s1", host_c_oses := "h1" }

/-- Second record with the duplicated id. -/
def dupB : Account :=
  { id := "dup", csesidx := "x2", config_id := "c2", secure_c_ses := "s2", host_c_oses := "h2" }

/-- A store holding both records with the duplicated id. -/
def dupStore : List Account := [dupA, dupB]

/-- A probe that rejects `dupA` (HTTP 401) and accepts everything else
(HTTP 200); it distinguishes the two copies by their cookie value. -/
def dupProbe : Account → ProbeResult :=
  fun a => if a.secure_c_ses = "s1" then .status 401 else .status 200

/-- A driver snapshot in which all four key fields are present. -/
def readyState : DriverState :=
  { secure_c_ses := some "s", host_c_oses := some "h",
    csesidx := some "x", config_id := some "c" }

/-- The record save_config builds from `readyState` for email "w@x". -/
def cfgRecord : Account :=
  { id := "w@x", csesidx := "x", config_id := "c",
    secure_c_ses := "s", host_c_oses := "h" }

/- ===================== Theorems ===================== -/

/-- Folding `delete_account` over a list of ids filters out every record
whose id occurs in the list. -/
theorem foldl_delete_eq_filter (ids : List String) (accounts : List Account) :
    ids.foldl (fun acc i => delete_account i acc) accounts
      = accounts.filter (fun a => !(ids.contains a.id)) := by
  induction ids generalizing accounts with
  | nil => simp
  | cons i rest ih =>
    rw [List.foldl_cons, ih, delete_account, List.filter_filter]
    apply List.filter_congr
    intro a _
    simp only [List.contains_cons, Bool.not_or, bne]
    cases h1 : a.id == i <;> cases h2 : rest.contains a.id <;>
      simp only [h1, h2, Bool.not_true, Bool.not_false, Bool.and_true, Bool.and_false,
        Bool.true_and, Bool.false_and]

/-- The eviction pass keeps exactly the records whose id is not among
the invalid ids. -/
theorem evictAll_eq_filter (probe : Account → ProbeResult) (store : List Account) :
    evictAll probe store
      = store.filter (fun a => !((invalid_ids probe store).contains a.id)) :=
  foldl_delete_eq_filter _ _

/-- The keeper's register_accounts wrapper never changes the store: for
target 0 it returns immediately, and for a positive target the
subprocess dies on the undefined OUTPUT_DIR before writing anything. -/
theorem register_keeper_noop (count : Nat) (provision : Nat → Account)
    (store : List Account) :
    register_accounts_keeper count provision store = store := by
  unfold register_accounts_keeper
  split
  · rfl
  · rfl

/-- A truthy optional string yields a nonempty string under `getD ""`. -/
theorem truthy_getD_ne {o : Option String} (h : truthy o = true) : o.getD "" ≠ "" := by
  cases o with
  | none => simp [truthy] at h
  | some s => simpa [truthy, bne_iff_ne] using h

/-- C2: for every positive target count, the registration script's
entry point raises a NameError on the undefined name OUTPUT_DIR while
printing its startup banner, before any provisioning attempt (attempt
count 0), so the subprocess exits nonzero with the store unchanged, and
the keeper's register_accounts wrapper merely logs the exit code and
returns normally with the store unchanged. -/
theorem register_main_name_error (k : Nat) (provision : Nat → Account)
    (store : List Account) (hk : 0 < k) :
    register_main k provision store = (store, 0, .error (.nameError "OUTPUT_DIR"))
    ∧ register_accounts_keeper k provision store = store := by
  have hk0 : k ≠ 0 := Nat.pos_iff_ne_zero.mp hk
  have h1 : register_main k provision store = (store, 0, .error (.nameError "OUTPUT_DIR")) := rfl
  refine ⟨h1, ?_⟩
  rw [register_accounts_keeper, if_neg hk0, h1]

/-- Witness for C2 at target 1 and an empty store. -/
theorem register_main_name_error_witness :
    register_main 1 sampleAccount [] = ([], 0, .error (.nameError "OUTPUT_DIR"))
    ∧ register_accounts_keeper 1 sampleAccount [] = [] :=
  register_main_name_error 1 sampleAccount [] (by decide)

/-- C1 (code bug): the claim's own scenario evaluated on the code.
Store of three credentials, floor 5, the probe rejects the third with
HTTP 401: eviction leaves two, deficit 3 is computed and
register_accounts is invoked with target 3 — but the subprocess dies on
the undefined OUTPUT_DIR before provisioning anything, so the run ends
with 2 credentials in the store, not the 5 the claim requires. -/
theorem replenish_target_not_met :
    (check_and_maintain_run probeKill3 5 true sampleAccount sampleStore3).registerCalls = [3]
    ∧ (check_and_maintain_run probeKill3 5 true sampleAccount sampleStore3).durable
        = [sampleAccount 1, sampleAccount 2]
    ∧ (check_and_maintain_run probeKill3 5 true sampleAccount sampleStore3).durable.length = 2 :=
  ⟨rfl, rfl, rfl⟩

/-- C4 counterexample: save_accounts interrupted one character into
rewriting a one-record store down to the empty list leaves the file
holding "[", which is neither the pre-image nor the post-image. -/
theorem replace_not_atomic :
    ¬ (save_accounts_interrupted (save_accounts_image [dupA]) [] 1 = save_accounts_image [dupA]
       ∨ save_accounts_interrupted (save_accounts_image [dupA]) [] 1 = save_accounts_image []) := by
  decide

/-- C4 amended: save_accounts overwrites accounts.json in place (open
mode "w" truncates, then json.dump writes) with no temp file or rename,
so a write interrupted after `i` characters leaves exactly the first `i`
characters of the new image: the write is complete only when `i` covers
the whole new image, and any earlier interruption leaves a truncated
file that differs from the post-image (and does not restore the
pre-image, which the truncating open already discarded). -/
theorem replace_in_place_truncation (oldContent : List Char) (newAccounts : List Account)
    (i : Nat) :
    ((save_accounts_image newAccounts).length ≤ i →
      save_accounts_interrupted oldContent newAccounts i = save_accounts_image newAccounts)
    ∧ (save_accounts_interrupted oldContent newAccounts i).length
        = min i (save_accounts_image newAccounts).length
    ∧ (i < (save_accounts_image newAccounts).length →
      save_accounts_interrupted oldContent newAccounts i ≠ save_accounts_image newAccounts) := by
  refine ⟨?_, ?_, ?_⟩
  · intro h
    simp [save_accounts_interrupted, List.take_of_length_le h]
  · simp [save_accounts_interrupted, List.length_take]
  · intro h heq
    have hlen := congrArg List.length heq
    simp [save_accounts_interrupted, List.length_take] at hlen
    omega

/-- Witness for C4's amended statement: a completed write equals the
post-image, and an interruption after one character leaves a one-character
truncated file different from the post-image. -/
theorem replace_in_place_truncation_witness :
    save_accounts_interrupted [] [dupA] 500 = save_accounts_image [dupA]
    ∧ (save_accounts_interrupted [] [dupA] 1).length = min 1 (save_accounts_image [dupA]).length
    ∧ save_accounts_interrupted [] [dupA] 1 ≠ save_accounts_image [dupA] :=
  ⟨(replace_in_place_truncation [] [dupA] 500).1 (by decide),
   (replace_in_place_truncation [] [dupA] 1).2.1,
   (replace_in_place_truncation [] [dupA] 1).2.2 (by decide)⟩

/-- C6: when the eviction save fails because the store is unwritable,
the run ends in an error having made no write and no replenishment call,
with the durable state unchanged; and every run's exception is absorbed
at the scheduler loop boundary — the next scheduled run proceeds from
the durable store regardless of the previous run's outcome. -/
theorem save_failure_isolated (probe : Account → ProbeResult) (minAccounts : Nat)
    (provision : Nat → Account) (store : List Account) (saveFn : Nat → Bool) (n : Nat)
    (hdead : invalid_ids probe store ≠ []) :
    check_and_maintain_run probe minAccounts false provision store
      = { durable := store, writes := [], registerCalls := [],
          outcome := .error .saveFailed }
    ∧ keeper_loop probe minAccounts saveFn provision store (n + 1)
      = (check_and_maintain_run probe minAccounts (saveFn n) provision
          (keeper_loop probe minAccounts saveFn provision store n)).durable := by
  refine ⟨?_, rfl⟩
  have hne : (invalid_ids probe store).isEmpty = false := by
    cases h : invalid_ids probe store with
    | nil => exact absurd h hdead
    | cons x xs => rfl
  simp [check_and_maintain_run, hne]

/-- Witness for C6: the duplicated-id store under the probe that rejects
one copy, with the store unwritable. -/
theorem save_failure_isolated_witness :
    check_and_maintain_run dupProbe 5 false sampleAccount dupStore
      = { durable := dupStore, writes := [], registerCalls := [],
          outcome := .error .saveFailed }
    ∧ keeper_loop dupProbe 5 (fun _ => false) sampleAccount dupStore 1
      = (check_and_maintain_run dupProbe 5 false sampleAccount
          (keeper_loop dupProbe 5 (fun _ => false) sampleAccount dupStore 0)).durable :=
  save_failure_isolated dupProbe 5 sampleAccount dupStore (fun _ => false) 0 (by decide)

/-- C3: check_account reports unusable exactly on HTTP 401 or 403; HTTP
200 classifies as Alive; every probe outcome classified Unknown (other
status codes, raised exceptions) is treated as usable (fail open); and a
run in which every entry probes Unknown performs zero evictions: no
invalid ids are collected and no store write happens. -/
theorem fail_open_probing :
    (∀ r, check_account r = false ↔ (r = .status 401 ∨ r = .status 403))
    ∧ classify (.status 200) = .alive
    ∧ (∀ r, classify r = .unknown → check_account r = true)
    ∧ (∀ (probe : Account → ProbeResult) (minAccounts : Nat) (provision : Nat → Account)
        (store : List Account), (∀ a ∈ store, classify (probe a) = .unknown) →
        invalid_ids probe store = []
        ∧ (check_and_maintain_run probe minAccounts true provision store).writes = []) := by
  have hcheck : ∀ r, classify r = .unknown → check_account r = true := by
    intro r h
    cases r with
    | exn => rfl
    | status c =>
      simp only [classify] at h
      split_ifs at h with h1 h2 <;>
        first
          | exact Status.noConfusion h
          | simp [check_account, h1, h2]
  refine ⟨?_, rfl, hcheck, ?_⟩
  · intro r
    cases r with
    | exn => simp [check_account]
    | status c =>
      by_cases h200 : c = 200
      · subst h200; simp [check_account]
      · by_cases hdead : c = 401 ∨ c = 403
        · simp [check_account, h200, hdead]
        · simp [check_account, h200, hdead]
  · intro probe minAccounts provision store hunknown
    have hinv : invalid_ids probe store = [] := by
      have hfil : store.filter (fun a => !check_account (probe a)) = [] := by
        rw [List.filter_eq_nil_iff]
        intro a ha
        simp [hcheck (probe a) (hunknown a ha)]
      simp [invalid_ids, hfil]
    refine ⟨hinv, ?_⟩
    simp only [check_and_maintain_run, hinv, List.isEmpty_nil, if_true]
    split
    · rfl
    · rfl

/-- Witness for C3 on a probe that always raises: a three-record store
collects no invalid ids and performs no write. -/
theorem fail_open_probing_witness :
    invalid_ids (fun _ => ProbeResult.exn) sampleStore3 = []
    ∧ (check_and_maintain_run (fun _ => ProbeResult.exn) 5 true
        sampleAccount sampleStore3).writes = [] :=
  fail_open_probing.2.2.2 (fun _ => ProbeResult.exn) 5 sampleAccount sampleStore3
    (fun a _ => rfl)

/-- C5: in a run whose eviction save succeeds, the deficit is the
truncated difference between the floor and the number of records that
probed usable — which is exactly max(0, floor − valid) — and
register_accounts is called with exactly that target when the deficit is
strictly positive, and not called at all otherwise. -/
theorem deficit_conditional_replenish (probe : Account → ProbeResult) (minAccounts : Nat)
    (provision : Nat → Account) (store : List Account) :
    (check_and_maintain_run probe minAccounts true provision store).registerCalls
      = (if (store.filter (fun a => check_account (probe a))).length < minAccounts
         then [minAccounts - (store.filter (fun a => check_account (probe a))).length]
         else [])
    ∧ ((minAccounts - (store.filter (fun a => check_account (probe a))).length : ℕ) : ℤ)
        = max 0 ((minAccounts : ℤ)
            - ((store.filter (fun a => check_account (probe a))).length : ℤ)) := by
  constructor
  · by_cases hinv : (invalid_ids probe store).isEmpty
    · simp only [check_and_maintain_run, hinv, if_true]
      split
      · rfl
      · rfl
    · simp only [check_and_maintain_run, hinv, if_false, Bool.false_eq_true, if_true]
      split
      · rfl
      · rfl
  · omega

/-- C7: the dedup append of save_config leaves exactly one record with
the appended id — the appended record itself (later write wins) — keeps
every record with a different id unchanged, and preserves id uniqueness
of the store. -/
theorem dedup_on_append (store : List Account) (c : Account) :
    (append_account c store).filter (fun a => a.id == c.id) = [c]
    ∧ (append_account c store).filter (fun a => a.id != c.id)
        = store.filter (fun a => a.id != c.id)
    ∧ ((store.map (fun a => a.id)).Nodup →
        ((append_account c store).map (fun a => a.id)).Nodup) := by
  have hmemne : ∀ a, a ∈ store.filter (fun x => x.id != c.id) → a.id ≠ c.id := by
    intro a ha
    have h2 := (List.mem_filter.mp ha).2
    simpa [bne_iff_ne] using h2
  refine ⟨?_, ?_, ?_⟩
  · rw [append_account, List.filter_append]
    have h1 : (store.filter (fun x => x.id != c.id)).filter (fun a => a.id == c.id) = [] := by
      rw [List.filter_eq_nil_iff]
      intro a ha
      simp [hmemne a ha]
    rw [h1]
    simp
  · rw [append_account, List.filter_append]
    have h2a : (store.filter (fun x => x.id != c.id)).filter (fun a => a.id != c.id)
        = store.filter (fun x => x.id != c.id) := by
      rw [List.filter_eq_self]
      intro a ha
      exact (List.mem_filter.mp ha).2
    have h2b : [c].filter (fun a => a.id != c.id) = [] := by
      simp [bne]
    rw [h2a, h2b, List.append_nil]
  · intro hnodup
    rw [append_account, List.map_append]
    have hsub : List.Sublist ((store.filter (fun x => x.id != c.id)).map (fun a => a.id))
        (store.map (fun a => a.id)) :=
      (List.filter_sublist store).map _
    have hfilnodup : ((store.filter (fun x => x.id != c.id)).map (fun a => a.id)).Nodup :=
      hsub.nodup hnodup
    have hnotmem : c.id ∉ (store.filter (fun x => x.id != c.id)).map (fun a => a.id) := by
      intro hmem
      obtain ⟨a, ha, haid⟩ := List.mem_map.mp hmem
      exact hmemne a ha haid
    simp [List.nodup_append, hfilnodup, hnotmem]

/-- Witness for C7: appending the second duplicated-id record to a
singleton store with a unique id keeps the id list duplicate-free. -/
theorem dedup_on_append_witness :
    ([dupA].map (fun a => a.id)).Nodup
    ∧ ((append_account dupB [dupA]).map (fun a => a.id)).Nodup :=
  ⟨by decide, (dedup_on_append [dupA] dupB).2.2 (by decide)⟩

/-- C8: save_config persists a record only when a polled driver snapshot
has all four required auth fields truthy: when no snapshot inside the
wait window is ready it returns failure and leaves the store untouched,
and when it returns a record, that record carries the registered email
as id, all four auth fields nonempty, and the store is updated by the
dedup append of exactly that fully populated record. -/
theorem no_partial_records (email : String) (states : List DriverState)
    (store : List Account) :
    ((save_config email states store).1 = none → (save_config email states store).2 = store)
    ∧ (∀ d, (save_config email states store).1 = some d →
        d.id = email ∧ d.secure_c_ses ≠ "" ∧ d.host_c_oses ≠ "" ∧ d.csesidx ≠ ""
        ∧ d.config_id ≠ ""
        ∧ (save_config email states store).2 = append_account d store) := by
  cases hfind : states.find? fieldsReady with
  | none =>
    constructor
    · intro _
      simp [save_config, hfind]
    · intro d hd
      simp [save_config, hfind] at hd
  | some s =>
    have hready : fieldsReady s = true := List.find?_some hfind
    have hfields := hready
    rw [fieldsReady] at hfields
    simp only [Bool.and_eq_true] at hfields
    obtain ⟨⟨⟨hses, hhost⟩, hcses⟩, hcfg⟩ := hfields
    constructor
    · intro h
      simp [save_config, hfind] at h
    · intro d hd
      simp only [save_config, hfind] at hd ⊢
      obtain rfl : _ = d := Option.some.injEq _ _ ▸ hd
      exact ⟨rfl, truthy_getD_ne hses, truthy_getD_ne hhost,
        truthy_getD_ne hcses, truthy_getD_ne hcfg, rfl⟩

/-- Witness for C8: an empty poll sequence persists nothing, and the
ready snapshot yields the fully populated record. -/
theorem no_partial_records_witness :
    (save_config "w@x" [] []).2 = ([] : List Account)
    ∧ (cfgRecord.id = "w@x" ∧ cfgRecord.secure_c_ses ≠ "" ∧ cfgRecord.host_c_oses ≠ ""
        ∧ cfgRecord.csesidx ≠ "" ∧ cfgRecord.config_id ≠ ""
        ∧ (save_config "w@x" [readyState] []).2 = append_account cfgRecord []) :=
  ⟨(no_partial_records "w@x" [] []).1 rfl,
   (no_partial_records "w@x" [readyState] []).2 cfgRecord (by decide)⟩

/-- C9: a run in which every record probes usable performs no store
write at all and leaves the persisted set unchanged; a run in which at
least one record probes unusable performs exactly one whole-set write —
the post-eviction set — and when the store's ids are unique that single
written set is exactly the set of records that probed usable. -/
theorem single_write_eviction (probe : Account → ProbeResult) (minAccounts : Nat)
    (provision : Nat → Account) (store : List Account) :
    ((∀ a ∈ store, check_account (probe a) = true) →
      (check_and_maintain_run probe minAccounts true provision store).writes = []
      ∧ (check_and_maintain_run probe minAccounts true provision store).durable = store)
    ∧ ((∃ a ∈ store, check_account (probe a) = false) →
      (check_and_maintain_run probe minAccounts true provision store).writes
        = [evictAll probe store])
    ∧ ((store.map (fun a => a.id)).Nodup →
      evictAll probe store = store.filter (fun a => check_account (probe a))) := by
  refine ⟨?_, ?_, ?_⟩
  · intro hall
    have hinv : invalid_ids probe store = [] := by
      have hfil : store.filter (fun a => !check_account (probe a)) = [] := by
        rw [List.filter_eq_nil_iff]
        intro a ha
        simp [hall a ha]
      simp [invalid_ids, hfil]
    simp only [check_and_maintain_run, hinv, List.isEmpty_nil, if_true]
    split
    · exact ⟨rfl, register_keeper_noop _ _ _⟩
    · exact ⟨rfl, rfl⟩
  · intro hex
    have hinv : (invalid_ids probe store).isEmpty = false := by
      obtain ⟨a, ha, hdead⟩ := hex
      have hmem : a.id ∈ invalid_ids probe store :=
        List.mem_map_of_mem _ (List.mem_filter.mpr ⟨ha, by simp [hdead]⟩)
      cases h : invalid_ids probe store with
      | nil => rw [h] at hmem; cases hmem
      | cons x xs => rfl
    simp only [check_and_maintain_run, hinv, Bool.false_eq_true, if_false, if_true]
    split
    · rfl
    · rfl
  · intro hnodup
    rw [evictAll_eq_filter]
    apply List.filter_congr
    intro a ha
    cases hchk : check_account (probe a) with
    | true =>
      simp only [Bool.not_eq_true']
      by_contra hcon
      simp only [Bool.not_eq_false] at hcon
      have hmem : a.id ∈ invalid_ids probe store := by simpa using hcon
      obtain ⟨b, hb, hbid⟩ := List.mem_map.mp hmem
      have hbfil := List.mem_filter.mp hb
      have hba : b = a :=
        List.inj_on_of_nodup_map hnodup hbfil.1 ha hbid
      rw [hba] at hbfil
      simp [hchk] at hbfil
    | false =>
      have hmem : a.id ∈ invalid_ids probe store :=
        List.mem_map_of_mem _ (List.mem_filter.mpr ⟨ha, by simp [hchk]⟩)
      simpa using hmem

/-- Witness for C9: the all-usable store writes nothing and is
unchanged; the store whose third record probes dead produces exactly one
write, which equals the set of records that probed usable. -/
theorem single_write_eviction_witness :
    ((check_and_maintain_run (fun _ => .status 200) 5 true sampleAccount sampleStore3).writes
        = []
      ∧ (check_and_maintain_run (fun _ => .status 200) 5 true
          sampleAccount sampleStore3).durable = sampleStore3)
    ∧ (check_and_maintain_run probeKill3 5 true sampleAccount sampleStore3).writes
        = [evictAll probeKill3 sampleStore3]
    ∧ evictAll probeKill3 sampleStore3
        = sampleStore3.filter (fun a => check_account (probeKill3 a)) :=
  ⟨(single_write_eviction (fun _ => .status 200) 5 sampleAccount sampleStore3).1
      (by decide),
   (single_write_eviction probeKill3 5 sampleAccount sampleStore3).2.1 (by decide),
   (single_write_eviction probeKill3 5 sampleAccount sampleStore3).2.2 (by decide)⟩

/-- C10: eviction removes by id, not by record — whenever two records of
the snapshot share an id and one of them probes unusable, the other is
also absent from the post-eviction set even if it probed usable; on the
concrete duplicated-id store this makes the persisted set (empty) a
strict subset of the records that probed usable (the second copy). -/
theorem evict_by_id (probe : Account → ProbeResult) (store : List Account)
    (a b : Account) (ha : a ∈ store) (hb : b ∈ store) (hid : a.id = b.id)
    (hdead : check_account (probe a) = false) :
    b ∉ evictAll probe store
    ∧ evictAll dupProbe dupStore = []
    ∧ dupStore.filter (fun x => check_account (dupProbe x)) = [dupB] := by
  refine ⟨?_, by decide, by decide⟩
  rw [evictAll_eq_filter]
  intro hmem
  have h2 := (List.mem_filter.mp hmem).2
  have hbid : b.id ∈ invalid_ids probe store := by
    rw [← hid]
    exact List.mem_map_of_mem _ (List.mem_filter.mpr ⟨ha, by simp [hdead]⟩)
  have : b.id ∉ invalid_ids probe store := by simpa using h2
  exact this hbid

/-- Witness for C10 on the duplicated-id store: the copy that probed
usable is nonetheless removed. -/
theorem evict_by_id_witness :
    dupA ∈ dupStore ∧ dupB ∈ dupStore ∧ dupA.id = dupB.id
    ∧ check_account (dupProbe dupA) = false
    ∧ check_account (dupProbe dupB) = true
    ∧ dupB ∉ evictAll dupProbe dupStore :=
  ⟨by decide, by decide, by decide, by decide, by decide,
   (evict_by_id dupProbe dupStore dupA dupB (by decide) (by decide) (by decide)
      (by decide)).1⟩

end GeminiKeeper
